import Mathlib

/-!
Verification of the NAP citation pipeline (extract → research → build
citations → summarize).  The Python source is shallowly embedded: Python
dictionaries with a fixed key set become structures whose fields are
`Option`-valued (`none` = key absent), Python `None` is the inner `none` of an
`Option (Option String)` field, exceptions become `Except`, and every stage's
`try/except` wrapper is the corresponding total function.  String-processing
primitives (`str.split`, `str.replace`, `str.strip`, `str.upper`, `re.sub`,
`' '.join`) are re-implemented structurally over `List Char` so that they are
faithful to Python semantics and evaluate inside the kernel.
-/

/-- A single-quote character, used to build string literals containing
apostrophes (for example the business name used in the report header). -/
def apos : String := String.singleton (Char.ofNat 39)

/-- `leadsWith pat l` is true when `pat` is a prefix of `l`. -/
def leadsWith : List Char → List Char → Bool
  | [], _ => true
  | _ :: _, [] => false
  | a :: as, b :: bs => a = b && leadsWith as bs

/-- `containsSub l pat` is true when `pat` occurs contiguously inside `l`
(Python's `pat in l`). -/
def containsSub : List Char → List Char → Bool
  | [], pat => leadsWith pat []
  | c :: cs, pat => leadsWith pat (c :: cs) || containsSub cs pat

/-- String-level wrapper for `containsSub`. -/
def strContains (s pat : String) : Bool := containsSub s.data pat.data

/-- Fuel-driven core of Python's `str.split(sep)` (`sep` non-empty): cut the
list at every occurrence of `sep`, keeping empty segments. -/
def pySplitGo (sep : List Char) : Nat → List Char → List (List Char)
  | _, [] => [[]]
  | 0, s => [s]
  | fuel + 1, c :: cs =>
      if leadsWith sep (c :: cs) then
        [] :: pySplitGo sep fuel (List.drop sep.length (c :: cs))
      else
        match pySplitGo sep fuel cs with
        | [] => [[c]]
        | w :: ws => (c :: w) :: ws

/-- Python `s.split(sep)` for a non-empty separator. -/
def pySplit (s sep : String) : List String :=
  (pySplitGo sep.data s.data.length s.data).map (fun w => String.mk w)

/-- Fuel-driven core of Python's `str.replace(find, repl)` (`find`
non-empty): replace every non-overlapping occurrence, left to right. -/
def pyReplaceGo (find repl : List Char) : Nat → List Char → List Char
  | _, [] => []
  | 0, s => s
  | fuel + 1, c :: cs =>
      if leadsWith find (c :: cs) then
        repl ++ pyReplaceGo find repl fuel (List.drop find.length (c :: cs))
      else
        c :: pyReplaceGo find repl fuel cs

/-- Python `s.replace(find, repl)` for a non-empty pattern. -/
def pyReplace (s find repl : String) : String :=
  String.mk (pyReplaceGo find.data repl.data s.data.length s.data)

/-- Python `s.strip()`: drop leading and trailing whitespace. -/
def pyStrip (s : String) : String :=
  String.mk (((s.data.dropWhile Char.isWhitespace).reverse.dropWhile
    Char.isWhitespace).reverse)

/-- Python `s.upper()` (ASCII, which covers every string the pipeline
produces). -/
def pyUpper (s : String) : String := String.mk (s.data.map Char.toUpper)

/-- Python `s.capitalize()`: first character upper-cased, the rest
lower-cased. -/
def pyCapitalize (s : String) : String :=
  match s.data with
  | [] => ""
  | c :: cs => String.mk (c.toUpper :: cs.map Char.toLower)

/-- Python `' '.join(words)` (also used with other separators). -/
def pyJoin (sep : String) : List String → String
  | [] => ""
  | [w] => w
  | w :: ws => w ++ sep ++ pyJoin sep ws

/-- `splitWS l` cuts `l` at every whitespace character, keeping empty
segments; the core of Python's argument-less `str.split()`. -/
def splitWS : List Char → List (List Char)
  | [] => [[]]
  | c :: cs =>
      if c.isWhitespace then [] :: splitWS cs
      else
        match splitWS cs with
        | [] => [[c]]
        | w :: ws => (c :: w) :: ws

/-- The words of `l`: whitespace-separated maximal non-empty segments.  This
is Python's `str.split()` with no argument. -/
def wordsCore (l : List Char) : List (List Char) :=
  (splitWS l).filter (fun w => w ≠ [])

/-- Python `s.split()` on a string, producing strings. -/
def pyWords (s : String) : List String := (wordsCore s.data).map String.mk

/-- The number of whitespace-separated words of `s` (the pipeline's
`len(s.split())`). -/
def wordCountS (s : String) : Nat := (wordsCore s.data).length

/-- `utils/text_utils.py`, `format_phone_number`, lines 25–47: strip all
non-digits; a 10-digit number is grouped `(XXX) XXX-XXXX`; an 11-digit
number starting with `1` drops that digit and is grouped; anything else is
returned unchanged (and a falsy input gives `""`). -/
def format_phone_number (phone : String) : String :=
  if phone = "" then ""
  else
    let digits := phone.data.filter Char.isDigit
    if digits.length = 10 then
      "(" ++ String.mk (digits.take 3) ++ ") " ++
        String.mk ((digits.drop 3).take 3) ++ "-" ++ String.mk (digits.drop 6)
    else if digits.length = 11 ∧ digits.take 1 = ['1'] then
      "(" ++ String.mk ((digits.drop 1).take 3) ++ ") " ++
        String.mk ((digits.drop 4).take 3) ++ "-" ++ String.mk (digits.drop 7)
    else phone

example : format_phone_number "5551234567" = "(555) 123-4567" := by decide
example : format_phone_number "15551234567" = "(555) 123-4567" := by decide
example : format_phone_number "notaphone" = "notaphone" := by decide
example : pySplit "https://www.yelp.com" "//" = ["https:", "www.yelp.com"] := by decide
example : pyReplace "www.yelp.com" "www." "" = "yelp.com" := by decide
example : pyStrip "  a b " = "a b" := by decide
example : pyWords " one  two " = ["one", "two"] := by decide
example : strContains "abcde" "bcd" = true := by decide
example : pyCapitalize "mapQuest" = "Mapquest" := by decide

example : toString (13 : Nat) = "13" := by decide

/-- A Python dictionary with the fixed key set the pipeline passes between
stages (`extraction_results` / `business_data`).  An outer `none` means the
key is absent from the dictionary; an inner `none` of an
`Option (Option String)` value means the key is present with value `None`. -/
structure BizData where
  success : Option Bool := none
  part_success : Option Bool := none
  name : Option (Option String) := none
  address : Option (Option String) := none
  phone : Option (Option String) := none
  source_url : Option (Option String) := none
  error : Option (Option String) := none
deriving DecidableEq, Repr

/-- Python `d.get(key, default)`: the stored value when the key is present
(even if that value is `None`), the default otherwise. -/
def pyGet (field : Option (Option String)) (default : Option String) :
    Option String := field.getD default

/-- Python truthiness of a string-or-`None` value: `None` and `""` are falsy. -/
def truthyS : Option String → Bool
  | none => false
  | some s => s != ""

/-- Rendering a string-or-`None` value inside an f-string: `None` prints as
the four characters `None`. -/
def strOfVal : Option String → String
  | none => "None"
  | some s => s

/-- `format_phone_number` applied to a value that may be Python `None`
(`if not phone: return ""` makes the `None` case return `""`). -/
def formatPhoneVal : Option String → String
  | none => ""
  | some s => format_phone_number s

/-- `config.py` line 29: `SUMMARY_WORD_COUNT = (100, 150)`. -/
def SUMMARY_WORD_COUNT : Nat × Nat := (100, 150)

/-- `config.py` line 28. -/
def OUTPUT_DIRECTORY : String := "data/output"

/-- `config.py` lines 5–20.  The source writes fourteen string literals but
omits the comma after `"https://www.tripadvisor.com"`, so Python
concatenates the two adjacent literals and the list has thirteen entries. -/
def BUSINESS_DIRECTORIES : List String :=
  ["https://www.yelp.com",
   "https://www.yellowpages.com",
   "https://www.bbb.org",
   "https://www.foursquare.com",
   "https://www.manta.com",
   "https://www.superpages.com",
   "https://www.chamberofcommerce.com",
   "https://www.mapquest.com",
   "https://www.citysearch.com",
   "https://www.tripadvisor.com" ++ "https://www.hotfrog.in",
   "https://www.provenexpert.com",
   "https://www.businessseek.biz/",
   "https://tupalo.com/"]

/-- The result dictionary of `CitationBuilderAgent.run`
(`agents/citation_builder_agent.py`): the success path carries a `citations`
mapping (embedded as an association list in insertion order) and no `error`
key; the `handle_error` path carries an `error` string and no `citations`
key. -/
structure CBResult where
  success : Bool
  citations : Option (List (String × String)) := none
  error : Option String := none
deriving DecidableEq, Repr

/-- `agents/citation_builder_agent.py` lines 44–61 plus the per-directory
template methods (lines 76–106): one hard-coded template per known
directory identifier, generic template otherwise. -/
def mkCitation (name address phone directory : String) : String :=
  if directory = "yelp" then
    name ++ "\n" ++ address ++ "\n" ++ phone ++
      "\n\nSubmission for Yelp Business Directory"
  else if directory = "yellowpages" then
    "Business Name: " ++ name ++ "\nFull Address: " ++ address ++
      "\nPhone: " ++ phone ++ "\n\nYellow Pages Listing Information"
  else if directory = "bbb" then
    "Company: " ++ name ++ "\nLocation: " ++ address ++ "\nContact: " ++
      phone ++ "\n\nBetter Business Bureau Registration Information"
  else if directory = "foursquare" then
    name ++ "\nLocated at: " ++ address ++ "\nCall: " ++ phone ++
      "\n\nFoursquare Venue Information"
  else if directory = "manta" then
    "Business: " ++ name ++ "\nAddress: " ++ address ++ "\nPhone Number: " ++
      phone ++ "\n\nManta Business Listing"
  else if directory = "superpages" then
    name ++ "\n" ++ address ++ "\n" ++ phone ++
      "\n\nSuperpages Directory Information"
  else if directory = "chamberofcommerce" then
    "Member Business: " ++ name ++ "\nBusiness Address: " ++ address ++
      "\nContact Number: " ++ phone ++
      "\n\nChamber of Commerce Directory Listing"
  else
    name ++ "\n" ++ address ++ "\n" ++ phone ++ "\n\nDirectory: " ++
      pyCapitalize directory

/-- The body of the `try` block of `CitationBuilderAgent.run` (lines 24–71):
`Except.error` is a raised exception.  `business_data["name"]` is embedded by
`strOfVal (pyGet ...)`, which agrees with the subscript because the
truthiness guard has ensured the key holds a string. -/
def citationBuilderBody (business_data : BizData)
    (selected_directories : List String) : Except String CBResult :=
  if truthyS (pyGet business_data.name none) = false then
    Except.error "Missing business name"
  else if selected_directories = [] then
    Except.ok { success := true, citations := some [] }
  else
    let name := strOfVal (pyGet business_data.name none)
    let address := pyGet business_data.address
      (some "Address pending verification")
    let phone0 := pyGet business_data.phone (some "Phone pending verification")
    let phone := if phone0 = some "Phone pending verification" then phone0
      else some (formatPhoneVal phone0)
    let citations := selected_directories.map
      (fun directory =>
        (directory, mkCitation name (strOfVal address) (strOfVal phone)
          directory))
    Except.ok { success := true, citations := some citations }

/-- `CitationBuilderAgent.run` with its `try/except` wrapper: any exception
is converted by `BaseAgent.handle_error` into
`{"success": False, "error": str(e)}`. -/
def citationBuilderRun (business_data : BizData)
    (selected_directories : List String) : CBResult :=
  match citationBuilderBody business_data selected_directories with
  | Except.ok r => r
  | Except.error e => { success := false, error := some e }

/-- One entry of the Researcher's `directories_checked` dictionary
(`agents/researcher_agent.py` lines 61–64 and 76–80): the success path
stores no `error` key, the exception path stores `exists: False` together
with the exception message.  The source key `exists` is a Lean keyword and
is embedded as `exists_`. -/
structure DirEntry where
  url : String
  exists_ : Bool
  error : Option String := none
deriving DecidableEq, Repr

/-- `agents/researcher_agent.py` line 56: domain of a directory URL,
`url.split("//")[1].split("/")[0].replace("www.", "")`. -/
def domainOf (url : String) : String :=
  pyReplace (((pySplit ((pySplit url "//").getD 1 "") "/").getD 0 ""))
    "www." ""

example : domainOf "https://www.yelp.com" = "yelp.com" := by decide
example : domainOf "https://www.businessseek.biz/" = "businessseek.biz" := by
  decide
example : domainOf "https://tupalo.com/" = "tupalo.com" := by decide
example :
    domainOf ("https://www.tripadvisor.com" ++ "https://www.hotfrog.in") =
      "tripadvisor.comhttps:" := by decide

/-- `agents/researcher_agent.py` lines 44–52: the search query is the name
plus the first comma-delimited address segment when a usable address exists,
the stripped name alone otherwise. -/
def searchQuery (business_data : BizData) : String :=
  let business_name := strOfVal (pyGet business_data.name none)
  let business_address := pyGet business_data.address (some "")
  if truthyS business_address = true ∧
      business_address ≠ some "Address unavailable" then
    let address_parts := (pySplit (strOfVal business_address) ",").getD 0 ""
    pyStrip (business_name ++ " " ++ address_parts)
  else
    pyStrip business_name

/-- The per-directory loop of `ResearcherAgent.run` (lines 55–80) over an
oracle `check url query` standing for `_check_directory` (its network fetch
and matching): `Except.error` is a raised exception, which the inner
`try/except` converts into an `exists: False` entry with the message, while
appending the domain to `missing_directories`; a successful check appends
the domain only when the business was not found.  Returns
(`directories_checked`, `missing_directories`) in iteration order. -/
def researchLoop (check : String → String → Except String Bool)
    (query : String) :
    List String → List (String × DirEntry) × List String
  | [] => ([], [])
  | url :: rest =>
      let domain := domainOf url
      let (entry, thisMissing) :=
        match check url query with
        | Except.ok found =>
            (({ url := url, exists_ := found } : DirEntry),
              if found then ([] : List String) else [domain])
        | Except.error e =>
            (({ url := url, exists_ := false, error := some e } : DirEntry),
              [domain])
      let (checked, missing) := researchLoop check query rest
      ((domain, entry) :: checked, thisMissing ++ missing)

/-- The result dictionary of `ResearcherAgent.run`: the success path fills
every key; the `handle_error` path returns only `success` and `error`. -/
structure RResult where
  success : Bool
  directories_checked : Option (List (String × DirEntry)) := none
  missing_directories : Option (List String) := none
  selected_directories : Option (List String) := none
  error : Option String := none
deriving DecidableEq, Repr

/-- `ResearcherAgent.run` (lines 19–94).  `sampler` stands for
`random.sample(·, 2)` and is invoked exactly when at least two directories
are missing (lines 82–86); with fewer than two missing the list itself is
selected. -/
def researcherRun (check : String → String → Except String Bool)
    (sampler : List String → List String) (business_data : BizData) :
    RResult :=
  if truthyS (pyGet business_data.name none) = false then
    { success := false, error := some "No business name provided" }
  else
    let query := searchQuery business_data
    let (checked, missing) := researchLoop check query BUSINESS_DIRECTORIES
    let selected := if 2 ≤ missing.length then sampler missing else missing
    { success := true, directories_checked := some checked,
      missing_directories := some missing,
      selected_directories := some selected }

/-- The one fixed filler sentence of `SummaryAgent._generate_summary`
(line 89), appended when the rendered summary is below the minimum word
count. -/
def fillerSentence (business_name : String) : String :=
  " " ++ ("Maintaining consistent NAP information across business " ++
    "directories is crucial for local SEO and helps potential customers " ++
    "find accurate information about " ++ business_name ++ ".")

/-- The rendered summary text of `SummaryAgent._generate_summary`
(lines 66–84), before the word-count adjustment. -/
def summaryBase (business_name : String) (directories_checked : Nat)
    (missing_directories selected_directories : List String) : String :=
  let s1 := "Research Summary for " ++ business_name ++ "\n\n" ++
    "The research process began by extracting the business" ++ apos ++
    "s Name, Address, and Phone (NAP) information from Google Maps. " ++
    "This data was then used to search across " ++
    toString directories_checked ++
    " business directories to determine where the business already has " ++
    "listings. "
  let s2 :=
    if missing_directories ≠ [] then
      s1 ++ "The research found that " ++ business_name ++
        " is missing from " ++ toString missing_directories.length ++
        " directories including " ++
        pyJoin ", " (missing_directories.take 3) ++
        (if 3 < missing_directories.length then
          " and " ++ toString (missing_directories.length - 3) ++ " others"
        else "") ++ ". "
    else
      s1 ++ "Interestingly, " ++ business_name ++
        " appears to be present in all checked directories. "
  let s3 :=
    if selected_directories ≠ [] then
      s2 ++ "Based on the findings, NAP citations were prepared for " ++
        pyJoin ", " selected_directories ++
        " as these directories would provide valuable additional " ++
        "visibility for " ++ business_name ++ ". "
    else
      s2 ++ "No directories were selected for citation building as the " ++
        "business appears to be well-represented across the checked " ++
        "platforms. "
  s3 ++ "The final citations were formatted according to each directory" ++
    apos ++ "s specific requirements to ensure accuracy and consistency " ++
    "of the business information across the web."

/-- `SummaryAgent._generate_summary` (lines 51–94): render the summary, then
append the filler sentence when below the configured minimum word count, or
hard-truncate to the configured maximum number of words when above it. -/
def generate_summary (business_name : String) (directories_checked : Nat)
    (missing_directories selected_directories : List String) : String :=
  let min_words := SUMMARY_WORD_COUNT.1
  let max_words := SUMMARY_WORD_COUNT.2
  let summary := summaryBase business_name directories_checked
    missing_directories selected_directories
  let words := pyWords summary
  if words.length < min_words then summary ++ fillerSentence business_name
  else if max_words < words.length then pyJoin " " (words.take max_words)
  else summary

/-- The result dictionary of `SummaryAgent.run`. -/
structure SResult where
  success : Bool
  summary : Option String := none
  word_count : Option Nat := none
  error : Option String := none
deriving DecidableEq, Repr

/-- `SummaryAgent.run` (lines 10–49).  The citation results are passed but
unused by `_generate_summary`; the body is total, so the `try/except`
wrapper never fires. -/
def summaryRun (business_data : BizData) (research_results : RResult)
    (citation_results : CBResult) : SResult :=
  let business_name := strOfVal (pyGet business_data.name
    (some "Unknown business"))
  let directories_checked := (research_results.directories_checked.getD
    []).length
  let missing_directories := research_results.missing_directories.getD []
  let selected_directories := research_results.selected_directories.getD []
  let summary := generate_summary business_name directories_checked
    missing_directories selected_directories
  { success := true, summary := some summary,
    word_count := some (pyWords summary).length }

/-- `utils/file_utils.py`, `generate_output_filename` (lines 56–74):
non-alphanumeric characters become underscores, the cleaned name is limited
to 30 characters, and the timestamp (a parameter here, `datetime.now()` in
the source) and extension are appended. -/
def generate_output_filename (business_name ts : String)
    (extension : String := "txt") : String :=
  let clean0 := String.mk (business_name.data.map
    (fun c => if c.isAlphanum then c else '_'))
  let clean_name := String.mk (clean0.data.take 30)
  clean_name ++ "_" ++ ts ++ "." ++ extension

/-- The `--- {DIRECTORY} CITATION ---` blocks of the report
(`main.py` lines 226–229), one per citation in mapping order. -/
def citationSections : List (String × String) → String
  | [] => ""
  | (directory, citation) :: rest =>
      "\n--- " ++ pyUpper directory ++ " CITATION ---\n" ++ citation ++
        "\n" ++ "-------------------------\n" ++ citationSections rest

/-- The dictionary returned by `run_workflow` (`main.py`): Python returns
different key sets per branch, so every key that some branch omits is
`Option`-valued with `none` for "absent".  `executed` is embedding
instrumentation: the stage agents awaited during the run, in order. -/
structure WResult where
  success : Bool
  stage : Option String := none
  error : Option (Option String) := none
  business_name : Option String := none
  output_file : Option String := none
  business_info : Option BizData := none
  directories_checked : Option Nat := none
  directories_missing : Option Nat := none
  missing_directories : Option (List String) := none
  citations_created : Option Nat := none
  citations : Option (List (String × String)) := none
  summary : Option String := none
  content : Option String := none
  executed : List String := []
deriving DecidableEq, Repr

/-- `main.py`, `run_workflow` (lines 64–257).  External effects are
parameters: `extractorResult` is the awaited result of
`ExtractorAgent.run(maps_url)`, `check`/`sampler` drive the embedded
Researcher, `now` is the report timestamp and `ts` the filename timestamp.
The UI progress objects and logging are elided; the output directory is the
configured default (`get_output_directory`'s local-development branch).
`save_text_file` writes `content` and returns `os.path.join(directory,
filename)`. -/
def run_workflow (check : String → String → Except String Bool)
    (sampler : List String → List String) (extractorResult : BizData)
    (now ts maps_url : String) : WResult :=
  if maps_url = "" ∨ pyStrip maps_url = "" then
    { success := false, stage := some "validation",
      error := some (some "Google Maps URL cannot be empty") }
  else
    let er := extractorResult
    if (er.success.getD false) = false ∧ (er.part_success.getD false) = false
    then
      { success := false, stage := some "extraction",
        error := some (pyGet er.error
          (some "Failed to extract required information")),
        executed := ["extraction"] }
    else if truthyS (pyGet er.name none) = false then
      { success := false, stage := some "extraction",
        error := some (some "Failed to extract business name, which is required"),
        executed := ["extraction"] }
    else
      let er1 : BizData := { er with
        name := some (pyGet er.name (some "")),
        address := some (pyGet er.address (some "Address unavailable")),
        phone := some (pyGet er.phone (some "Phone unavailable")) }
      let rr := researcherRun check sampler er1
      if rr.success = false then
        { success := false, stage := some "research",
          error := some (some (rr.error.getD "Research failed")),
          executed := ["extraction", "research"] }
      else
        let rr1 := { rr with
          missing_directories := some (rr.missing_directories.getD []),
          selected_directories := some (rr.selected_directories.getD []) }
        let cr := citationBuilderRun er1 (rr1.selected_directories.getD [])
        if cr.success = false then
          { success := false, stage := some "citation_building",
            error := some (some (cr.error.getD "Citation building failed")),
            executed := ["extraction", "research", "citation_building"] }
        else
          let cr1 := { cr with citations := some (cr.citations.getD []) }
          let sr := summaryRun er1 rr1 cr1
          if sr.success = false then
            { success := false, stage := some "summary",
              error := some (some (sr.error.getD "Summary generation failed")),
              executed := ["extraction", "research", "citation_building",
                "summary"] }
          else
            let sr1 := { sr with
              summary := some (sr.summary.getD "Summary unavailable") }
            match er1.source_url with
            | none =>
                -- `extraction_results['source_url']` raises a KeyError inside
                -- the output try-block; `str(e)` is the quoted key name.
                { success := false, stage := some "output",
                  error := some (some (apos ++ "source_url" ++ apos)),
                  executed := ["extraction", "research", "citation_building",
                    "summary"] }
            | some src =>
                let name := strOfVal (pyGet er1.name none)
                let filename := generate_output_filename name ts
                let content :=
                  "NAP CITATION REPORT FOR " ++ name ++ "\n" ++
                  "Generated on: " ++ now ++ "\n\n" ++
                  "BUSINESS INFORMATION:\n" ++
                  "Name: " ++ name ++ "\n" ++
                  "Address: " ++ strOfVal (pyGet er1.address none) ++ "\n" ++
                  "Phone: " ++ strOfVal (pyGet er1.phone none) ++ "\n" ++
                  "Source URL: " ++ strOfVal src ++ "\n\n" ++
                  "RESEARCH SUMMARY:\n" ++ sr1.summary.getD "" ++ "\n\n" ++
                  "CITATIONS:\n" ++ citationSections (cr1.citations.getD [])
                let filepath := OUTPUT_DIRECTORY ++ "/" ++ filename
                { success := true,
                  business_name := some name,
                  output_file := some filepath,
                  business_info := some er1,
                  directories_checked :=
                    some (rr1.directories_checked.getD []).length,
                  directories_missing :=
                    some (rr1.missing_directories.getD []).length,
                  missing_directories := rr1.missing_directories,
                  citations_created := some (cr1.citations.getD []).length,
                  citations := cr1.citations,
                  summary := sr1.summary,
                  content := some content,
                  executed := ["extraction", "research", "citation_building",
                    "summary"] }

/-- Character-level counterpart of `pyJoin " "`, used to reason about word
counts of joined word lists. -/
def charJoin : List (List Char) → List Char
  | [] => []
  | [w] => w
  | w :: v :: ws => w ++ ' ' :: charJoin (v :: ws)

/-- The extraction result of the C1 end-to-end scenario: name recovered,
address and phone present but empty, `success: False`,
`partial_success: True`. -/
def er_joes : BizData :=
  { success := some false, part_success := some true,
    name := some (some ("Joe" ++ apos ++ "s Cafe")),
    address := some (some ""), phone := some (some ""),
    source_url := some (some "https://maps.google.com/place/joes"),
    error := none }

/-- A `_check_directory` oracle that finds the business nowhere and never
raises. -/
def check_allmissing : String → String → Except String Bool :=
  fun _ _ => Except.ok false

/-- A `_check_directory` oracle that raises a connection error on the BBB
directory and reports the business present everywhere else. -/
def check_bbb_error : String → String → Except String Bool :=
  fun url _ =>
    if url = "https://www.bbb.org" then Except.error "Connection refused"
    else Except.ok true

/-- A deterministic stand-in for `random.sample(l, 2)`: the first two
elements (a valid sample: two distinct positions). -/
def sampler_first2 : List String → List String :=
  fun l =>
    if h : 2 ≤ l.length then [l.get ⟨0, by omega⟩, l.get ⟨1, by omega⟩]
    else l

/-- The full C1 scenario run: extraction returned `er_joes`, every directory
check reports the business missing, the sampler picks the first two missing
directories. -/
def c1_run : WResult :=
  run_workflow check_allmissing sampler_first2 er_joes
    "2026-01-01 12:00:00" "20260101_120000"
    "https://maps.google.com/place/joes"

/-- An extractor result in which nothing at all was recovered: every NAP
field is `None` and both success flags are false (exactly what
`ExtractorAgent.run` returns for a page yielding no data). -/
def er_noname : BizData :=
  { success := some false, part_success := some false,
    name := some none, address := some none, phone := some none,
    source_url := some (some "https://maps.google.com/place/empty"),
    error := none }

/-- The C7 scenario run: extraction recovered no name (and nothing else). -/
def c7_run : WResult :=
  run_workflow check_allmissing sampler_first2 er_noname
    "2026-01-01 12:00:00" "20260101_120000"
    "https://maps.google.com/place/empty"

/-- A business-data dictionary holding only a (non-empty) name; the
`address` and `phone` keys are absent. -/
def bd_nameonly : BizData := { name := some (some "Acme Anvils") }

/-- An extractor result with partial success: an address was recovered but
no name and no phone. -/
def er_nameless : BizData :=
  { success := some false, part_success := some true,
    name := some none,
    address := some (some "123 Main Street, Springfield"),
    phone := some none,
    source_url := some (some "https://maps.google.com/place/x"),
    error := none }

/-- The `(XXX) XXX-XXXX` grouping that `format_phone_number` applies to a
ten-digit list. -/
def phoneGroup (d : List Char) : String :=
  "(" ++ String.mk (d.take 3) ++ ") " ++ String.mk ((d.drop 3).take 3) ++
    "-" ++ String.mk (d.drop 6)

theorem strAppend_assoc (a b c : String) : a ++ b ++ c = a ++ (b ++ c) := by
  apply String.ext
  simp [String.data_append, List.append_assoc]

theorem strMk_data (s : String) : String.mk s.data = s := by
  cases s
  rfl

theorem splitWS_ne_nil (l : List Char) : splitWS l ≠ [] := by
  induction l with
  | nil => simp [splitWS]
  | cons c cs ih =>
    by_cases hc : c.isWhitespace <;> simp only [splitWS, hc]
    · simp
    · simp only [if_neg, Bool.false_eq_true, if_false]
      cases h : splitWS cs <;> simp

theorem splitWS_append (a b : List Char) (c : Char)
    (hc : c.isWhitespace = true) :
    splitWS (a ++ c :: b) = splitWS a ++ splitWS b := by
  induction a with
  | nil => simp [splitWS, hc]
  | cons d ds ih =>
    by_cases hd : d.isWhitespace
    · simp [splitWS, hd, ih]
    · simp only [List.cons_append, splitWS, hd, Bool.false_eq_true, if_false]
      simp only [List.append_eq]
      rw [ih]
      cases h : splitWS ds with
      | nil => exact absurd h (splitWS_ne_nil ds)
      | cons w ws => simp

theorem mem_splitWS_no_space {l w : List Char} (hw : w ∈ splitWS l) :
    ∀ c ∈ w, c.isWhitespace = false := by
  induction l generalizing w with
  | nil =>
    simp [splitWS] at hw
    simp [hw]
  | cons d ds ih =>
    by_cases hd : d.isWhitespace
    · simp only [splitWS, hd, if_true, List.mem_cons] at hw
      rcases hw with rfl | hw
      · simp
      · exact ih hw
    · simp only [splitWS, hd, Bool.false_eq_true, if_false] at hw
      cases h : splitWS ds with
      | nil => exact absurd h (splitWS_ne_nil ds)
      | cons u us =>
        rw [h] at hw
        rcases List.mem_cons.mp hw with rfl | hw
        · intro c hc
          rcases List.mem_cons.mp hc with rfl | hc
          · simpa using hd
          · exact ih (h ▸ List.mem_cons_self u us) c hc
        · exact ih (h ▸ List.mem_cons_of_mem u hw)

theorem splitWS_all_no_space {l : List Char}
    (h : ∀ c ∈ l, c.isWhitespace = false) : splitWS l = [l] := by
  induction l with
  | nil => rfl
  | cons d ds ih =>
    have hd : d.isWhitespace = false := h d (List.mem_cons_self d ds)
    have hds := ih (fun c hc => h c (List.mem_cons_of_mem d hc))
    simp [splitWS, hd, hds]

theorem wordsCore_append (a b : List Char) (c : Char)
    (hc : c.isWhitespace = true) :
    wordsCore (a ++ c :: b) = wordsCore a ++ wordsCore b := by
  unfold wordsCore
  rw [splitWS_append a b c hc, List.filter_append]

theorem wordsCore_word {l : List Char} (hne : l ≠ [])
    (h : ∀ c ∈ l, c.isWhitespace = false) : wordsCore l = [l] := by
  unfold wordsCore
  rw [splitWS_all_no_space h]
  simp [hne]

theorem mem_wordsCore {l w : List Char} (hw : w ∈ wordsCore l) :
    w ≠ [] ∧ ∀ c ∈ w, c.isWhitespace = false := by
  unfold wordsCore at hw
  refine ⟨?_, mem_splitWS_no_space (List.mem_of_mem_filter hw)⟩
  have := List.of_mem_filter hw
  simpa using this

theorem wordsCore_eq_nil_iff (l : List Char) :
    wordsCore l = [] ↔ ∀ c ∈ l, c.isWhitespace = true := by
  induction l with
  | nil => simp [wordsCore, splitWS]
  | cons d ds ih =>
    by_cases hd : d.isWhitespace
    · have hstep : wordsCore (d :: ds) = wordsCore ds := by
        simp [wordsCore, splitWS, hd, List.filter_cons]
      rw [hstep, ih]
      constructor
      · intro h c hc
        rcases List.mem_cons.mp hc with rfl | hc
        · exact hd
        · exact h c hc
      · intro h c hc
        exact h c (List.mem_cons_of_mem d hc)
    · constructor
      · intro h
        exfalso
        simp only [wordsCore, splitWS, hd, Bool.false_eq_true, if_false]
          at h
        cases hsp : splitWS ds with
        | nil => exact absurd hsp (splitWS_ne_nil ds)
        | cons u us =>
          rw [hsp] at h
          simp [List.filter_cons] at h
      · intro h
        exact absurd (h d (List.mem_cons_self d ds)) (by simp [hd])

theorem data_pyJoin_space (ws : List String) :
    (pyJoin " " ws).data = charJoin (ws.map String.data) := by
  induction ws with
  | nil => rfl
  | cons w ws ih =>
    cases ws with
    | nil => rfl
    | cons v vs =>
      show (w ++ " " ++ pyJoin " " (v :: vs)).data = _
      simp only [String.data_append, ih]
      show w.data ++ [' '] ++ _ = w.data ++ ' ' :: _
      simp

theorem wordsCore_charJoin (ws : List (List Char))
    (h : ∀ w ∈ ws, w ≠ [] ∧ ∀ c ∈ w, c.isWhitespace = false) :
    wordsCore (charJoin ws) = ws := by
  induction ws with
  | nil => rfl
  | cons w ws ih =>
    cases ws with
    | nil =>
      have hw := h w (List.mem_cons_self w [])
      exact wordsCore_word hw.1 hw.2
    | cons v vs =>
      have hw := h w (List.mem_cons_self w (v :: vs))
      have hrest : ∀ u ∈ v :: vs, u ≠ [] ∧ ∀ c ∈ u, c.isWhitespace = false :=
        fun u hu => h u (List.mem_cons_of_mem w hu)
      show wordsCore (w ++ ' ' :: charJoin (v :: vs)) = _
      rw [wordsCore_append _ _ ' ' (by decide), wordsCore_word hw.1 hw.2,
        ih hrest]
      rfl

theorem pyWords_pyJoin (ws : List String)
    (h : ∀ w ∈ ws, w.data ≠ [] ∧ ∀ c ∈ w.data, c.isWhitespace = false) :
    pyWords (pyJoin " " ws) = ws := by
  unfold pyWords
  rw [data_pyJoin_space, wordsCore_charJoin (ws.map String.data) ?_]
  · rw [List.map_map]
    have : ∀ x ∈ ws, (String.mk ∘ String.data) x = id x := by
      intro x _
      simp [Function.comp, strMk_data]
    rw [List.map_congr_left this, List.map_id]
  · intro w hw
    rcases List.mem_map.mp hw with ⟨u, hu, rfl⟩
    exact h u hu

theorem wordCountS_append_filler (s business_name : String) :
    wordCountS s < wordCountS (s ++ fillerSentence business_name) := by
  have hdec : (s ++ fillerSentence business_name).data =
      s.data ++ ' ' :: ("Maintaining consistent NAP information across " ++
        "business directories is crucial for local SEO and helps " ++
        "potential customers find accurate information about " ++
        business_name ++ ".").data := by
    show (s ++ (" " ++ _)).data = _
    simp [String.data_append]
  unfold wordCountS
  rw [hdec, wordsCore_append _ _ ' ' (by decide), List.length_append]
  have hne : wordsCore ("Maintaining consistent NAP information across " ++
      "business directories is crucial for local SEO and helps " ++
      "potential customers find accurate information about " ++
      business_name ++ ".").data ≠ [] := by
    rw [Ne, wordsCore_eq_nil_iff]
    intro h
    have hM : 'M' ∈ ("Maintaining consistent NAP information across " ++
        "business directories is crucial for local SEO and helps " ++
        "potential customers find accurate information about " ++
        business_name ++ ".").data := by
      simp only [String.data_append]
      refine List.mem_append.mpr (Or.inl ?_)
      refine List.mem_append.mpr (Or.inl ?_)
      refine List.mem_append.mpr (Or.inl ?_)
      refine List.mem_append.mpr (Or.inl ?_)
      decide
    have := h 'M' hM
    simp at this
  have : 0 < (wordsCore (("Maintaining consistent NAP information across " ++
      "business directories is crucial for local SEO and helps " ++
      "potential customers find accurate information about " ++
      business_name ++ ".").data)).length :=
    List.length_pos.mpr hne
  omega

theorem wordCountS_eq (s : String) : wordCountS s = (pyWords s).length := by
  simp [pyWords, wordCountS]

/-- C6: for every rendered summary text whose word count is strictly below
the configured minimum, the fixed filler sentence is appended and the word
count of the result strictly exceeds that of the unpadded text; for every
rendered summary text whose word count strictly exceeds the configured
maximum, the returned summary contains exactly the configured maximum
number of words. -/
theorem summary_word_bounds (business_name : String)
    (directories_checked : Nat)
    (missing_directories selected_directories : List String) :
    (wordCountS (summaryBase business_name directories_checked
        missing_directories selected_directories) < SUMMARY_WORD_COUNT.1 →
      generate_summary business_name directories_checked missing_directories
          selected_directories =
        summaryBase business_name directories_checked missing_directories
          selected_directories ++ fillerSentence business_name ∧
      wordCountS (summaryBase business_name directories_checked
          missing_directories selected_directories) <
        wordCountS (generate_summary business_name directories_checked
          missing_directories selected_directories)) ∧
    (SUMMARY_WORD_COUNT.2 < wordCountS (summaryBase business_name
        directories_checked missing_directories selected_directories) →
      wordCountS (generate_summary business_name directories_checked
        missing_directories selected_directories) = SUMMARY_WORD_COUNT.2) := by
  constructor
  · intro h
    have h' : (pyWords (summaryBase business_name directories_checked
        missing_directories selected_directories)).length < 100 := by
      rw [← wordCountS_eq]
      simpa [SUMMARY_WORD_COUNT] using h
    have hres : generate_summary business_name directories_checked
        missing_directories selected_directories =
        summaryBase business_name directories_checked missing_directories
          selected_directories ++ fillerSentence business_name := by
      unfold generate_summary
      simp only [SUMMARY_WORD_COUNT]
      rw [if_pos h']
    refine ⟨hres, ?_⟩
    rw [hres]
    exact wordCountS_append_filler _ _
  · intro h
    have hcount : 150 < (pyWords (summaryBase business_name
        directories_checked missing_directories selected_directories)).length
        := by
      rw [← wordCountS_eq]
      simpa [SUMMARY_WORD_COUNT] using h
    have h1 : ¬ ((pyWords (summaryBase business_name directories_checked
        missing_directories selected_directories)).length < 100) := by
      omega
    have hres : generate_summary business_name directories_checked
        missing_directories selected_directories =
        pyJoin " " ((pyWords (summaryBase business_name directories_checked
          missing_directories selected_directories)).take 150) := by
      unfold generate_summary
      simp only [SUMMARY_WORD_COUNT]
      rw [if_neg h1, if_pos hcount]
    rw [hres, wordCountS_eq]
    have hw : pyWords (pyJoin " " ((pyWords (summaryBase business_name
        directories_checked missing_directories
        selected_directories)).take 150)) =
        (pyWords (summaryBase business_name directories_checked
          missing_directories selected_directories)).take 150 := by
      apply pyWords_pyJoin
      intro w hwmem
      have hmem : w ∈ pyWords (summaryBase business_name directories_checked
          missing_directories selected_directories) :=
        List.take_subset _ _ hwmem
      rcases List.mem_map.mp hmem with ⟨u, hu, rfl⟩
      have hm := mem_wordsCore hu
      exact ⟨by simpa using hm.1, by simpa using hm.2⟩
    rw [hw, List.length_take, SUMMARY_WORD_COUNT]
    omega

set_option maxRecDepth 40000 in
/-- Witness for C6: a short rendering (91 words) gains the filler sentence
and grows; a long rendering (158 words) is truncated to exactly 150
words. -/
theorem summary_word_bounds_witness :
    (generate_summary "A" 13 [] [] =
        summaryBase "A" 13 [] [] ++ fillerSentence "A" ∧
      wordCountS (summaryBase "A" 13 [] []) <
        wordCountS (generate_summary "A" 13 [] [])) ∧
    wordCountS (generate_summary ("Alpha Beta Gamma Delta Epsilon Zeta " ++
        "Eta Theta Iota Kappa Lambda Mu Nu Xi Omicron Pi Rho Sigma Tau " ++
        "Upsilon") 13
      ["yelp.com", "yellowpages.com", "bbb.org", "foursquare.com"]
      ["yelp.com", "yellowpages.com"]) = SUMMARY_WORD_COUNT.2 :=
  ⟨(summary_word_bounds "A" 13 [] []).1 (by decide),
   (summary_word_bounds ("Alpha Beta Gamma Delta Epsilon Zeta " ++
        "Eta Theta Iota Kappa Lambda Mu Nu Xi Omicron Pi Rho Sigma Tau " ++
        "Upsilon") 13
      ["yelp.com", "yellowpages.com", "bbb.org", "foursquare.com"]
      ["yelp.com", "yellowpages.com"]).2 (by decide)⟩

theorem phoneGroup_data (d : List Char) :
    (phoneGroup d).data =
      ['('] ++ d.take 3 ++ [')', ' '] ++ (d.drop 3).take 3 ++ ['-'] ++
        d.drop 6 := by
  simp [phoneGroup, String.data_append]

theorem phoneGroup_ne_empty (d : List Char) : phoneGroup d ≠ "" := by
  intro h
  have h2 := congrArg String.data h
  rw [phoneGroup_data] at h2
  simp at h2

theorem filter_digits_phoneGroup (d : List Char)
    (hd : ∀ c ∈ d, c.isDigit = true) :
    (phoneGroup d).data.filter Char.isDigit = d := by
  rw [phoneGroup_data]
  simp only [List.filter_append]
  rw [List.filter_eq_self.mpr (fun c hc => hd c (List.take_subset 3 d hc)),
    List.filter_eq_self.mpr
      (fun c hc => hd c (List.drop_subset 3 d (List.take_subset _ _ hc))),
    List.filter_eq_self.mpr (fun c hc => hd c (List.drop_subset 6 d hc))]
  have h1 : ['('].filter Char.isDigit = [] := by decide
  have h2 : [')', ' '].filter Char.isDigit = [] := by decide
  have h3 : ['-'].filter Char.isDigit = [] := by decide
  rw [h1, h2, h3]
  simp only [List.nil_append, List.append_nil]
  have h6 : d.drop 6 = (d.drop 3).drop 3 := by
    rw [List.drop_drop]
  rw [List.append_assoc, h6, List.take_append_drop, List.take_append_drop]

theorem format_phone_10 (s : String)
    (h10 : (s.data.filter Char.isDigit).length = 10) :
    format_phone_number s = phoneGroup (s.data.filter Char.isDigit) := by
  have hs : s ≠ "" := by
    intro h
    subst h
    simp at h10
  simp only [format_phone_number, phoneGroup]
  rw [if_neg hs, if_pos h10]

theorem format_phone_11 (s : String)
    (h11 : (s.data.filter Char.isDigit).length = 11)
    (h1 : (s.data.filter Char.isDigit).take 1 = ['1']) :
    format_phone_number s =
      phoneGroup ((s.data.filter Char.isDigit).drop 1) := by
  have hs : s ≠ "" := by
    intro h
    subst h
    simp at h11
  have h10 : ¬ (s.data.filter Char.isDigit).length = 10 := by
    omega
  simp only [format_phone_number, phoneGroup]
  rw [if_neg hs, if_neg h10, if_pos ⟨h11, h1⟩]
  have e3 : ((s.data.filter Char.isDigit).drop 1).drop 3 =
      (s.data.filter Char.isDigit).drop 4 := by
    rw [List.drop_drop]
  have e6 : ((s.data.filter Char.isDigit).drop 1).drop 6 =
      (s.data.filter Char.isDigit).drop 7 := by
    rw [List.drop_drop]
  rw [e3, e6]

theorem format_phone_other (s : String)
    (h10 : ¬ (s.data.filter Char.isDigit).length = 10)
    (h11 : ¬ ((s.data.filter Char.isDigit).length = 11 ∧
      (s.data.filter Char.isDigit).take 1 = ['1'])) :
    format_phone_number s = s := by
  by_cases hs : s = ""
  · subst hs
    rfl
  · simp only [format_phone_number]
    rw [if_neg hs, if_neg h10, if_neg h11]

/-- C3: `format_phone_number` maps `"5551234567"` to `"(555) 123-4567"`,
`"15551234567"` to `"(555) 123-4567"` and returns `"notaphone"` unchanged;
in general a 10-digit input is grouped, an 11-digit input with leading digit
`1` drops the country digit and is grouped, and every other input is
returned as given. -/
theorem format_phone_number_cases :
    format_phone_number "5551234567" = "(555) 123-4567" ∧
    format_phone_number "15551234567" = "(555) 123-4567" ∧
    format_phone_number "notaphone" = "notaphone" ∧
    (∀ s : String,
      ((s.data.filter Char.isDigit).length = 10 →
        format_phone_number s = phoneGroup (s.data.filter Char.isDigit)) ∧
      ((s.data.filter Char.isDigit).length = 11 →
        (s.data.filter Char.isDigit).take 1 = ['1'] →
        format_phone_number s =
          phoneGroup ((s.data.filter Char.isDigit).drop 1)) ∧
      (¬ (s.data.filter Char.isDigit).length = 10 →
        ¬ ((s.data.filter Char.isDigit).length = 11 ∧
          (s.data.filter Char.isDigit).take 1 = ['1']) →
        format_phone_number s = s)) :=
  ⟨by decide, by decide, by decide,
   fun s => ⟨format_phone_10 s,
     fun h11 h1 => format_phone_11 s h11 h1,
     fun h10 h11 => format_phone_other s h10 h11⟩⟩

/-- Witness for C3: the three general clauses applied at concrete inputs
with dots, a leading `+1`, and too few digits. -/
theorem format_phone_number_cases_witness :
    format_phone_number "555.123.4567" = "(555) 123-4567" ∧
    format_phone_number "+1 (555) 123-4567" = "(555) 123-4567" ∧
    format_phone_number "12345" = "12345" :=
  ⟨((format_phone_number_cases.2.2.2 "555.123.4567").1
      (by decide)).trans (by decide),
   ((format_phone_number_cases.2.2.2 "+1 (555) 123-4567").2.1
      (by decide) (by decide)).trans (by decide),
   (format_phone_number_cases.2.2.2 "12345").2.2 (by decide) (by decide)⟩

/-- C10: `format_phone_number` is idempotent — formatting an
already-formatted (or unchanged) phone string again yields the same
string. -/
theorem format_phone_number_idem (s : String) :
    format_phone_number (format_phone_number s) = format_phone_number s := by
  by_cases h10 : (s.data.filter Char.isDigit).length = 10
  · rw [format_phone_10 s h10]
    have hd : ∀ c ∈ s.data.filter Char.isDigit, c.isDigit = true :=
      fun c hc => List.of_mem_filter hc
    have hfd := filter_digits_phoneGroup _ hd
    rw [format_phone_10 (phoneGroup (s.data.filter Char.isDigit))
      (by rw [hfd]; exact h10), hfd]
  · by_cases h11 : (s.data.filter Char.isDigit).length = 11 ∧
        (s.data.filter Char.isDigit).take 1 = ['1']
    · rw [format_phone_11 s h11.1 h11.2]
      have hd : ∀ c ∈ (s.data.filter Char.isDigit).drop 1, c.isDigit = true :=
        fun c hc => List.of_mem_filter (List.drop_subset 1 _ hc)
      have hfd := filter_digits_phoneGroup _ hd
      have hlen : ((s.data.filter Char.isDigit).drop 1).length = 10 := by
        rw [List.length_drop, h11.1]
      rw [format_phone_10 (phoneGroup ((s.data.filter Char.isDigit).drop 1))
        (by rw [hfd]; exact hlen), hfd]
    · rw [format_phone_other s h10 h11, format_phone_other s h10 h11]

theorem mkCitation_has_address (name addr ph d : String) :
    ∃ x y, mkCitation name addr ph d = x ++ (addr ++ y) := by
  unfold mkCitation
  split_ifs
  · exact ⟨name ++ "\n",
      "\n" ++ ph ++ "\n\nSubmission for Yelp Business Directory",
      by simp [strAppend_assoc]⟩
  · exact ⟨"Business Name: " ++ name ++ "\nFull Address: ",
      "\nPhone: " ++ ph ++ "\n\nYellow Pages Listing Information",
      by simp [strAppend_assoc]⟩
  · exact ⟨"Company: " ++ name ++ "\nLocation: ",
      "\nContact: " ++ ph ++
        "\n\nBetter Business Bureau Registration Information",
      by simp [strAppend_assoc]⟩
  · exact ⟨name ++ "\nLocated at: ",
      "\nCall: " ++ ph ++ "\n\nFoursquare Venue Information",
      by simp [strAppend_assoc]⟩
  · exact ⟨"Business: " ++ name ++ "\nAddress: ",
      "\nPhone Number: " ++ ph ++ "\n\nManta Business Listing",
      by simp [strAppend_assoc]⟩
  · exact ⟨name ++ "\n",
      "\n" ++ ph ++ "\n\nSuperpages Directory Information",
      by simp [strAppend_assoc]⟩
  · exact ⟨"Member Business: " ++ name ++ "\nBusiness Address: ",
      "\nContact Number: " ++ ph ++
        "\n\nChamber of Commerce Directory Listing",
      by simp [strAppend_assoc]⟩
  · exact ⟨name ++ "\n",
      "\n" ++ ph ++ "\n\nDirectory: " ++ pyCapitalize d,
      by simp [strAppend_assoc]⟩

theorem mkCitation_has_phone (name addr ph d : String) :
    ∃ x y, mkCitation name addr ph d = x ++ (ph ++ y) := by
  unfold mkCitation
  split_ifs
  · exact ⟨name ++ "\n" ++ addr ++ "\n",
      "\n\nSubmission for Yelp Business Directory",
      by simp [strAppend_assoc]⟩
  · exact ⟨"Business Name: " ++ name ++ "\nFull Address: " ++ addr ++
        "\nPhone: ",
      "\n\nYellow Pages Listing Information",
      by simp [strAppend_assoc]⟩
  · exact ⟨"Company: " ++ name ++ "\nLocation: " ++ addr ++ "\nContact: ",
      "\n\nBetter Business Bureau Registration Information",
      by simp [strAppend_assoc]⟩
  · exact ⟨name ++ "\nLocated at: " ++ addr ++ "\nCall: ",
      "\n\nFoursquare Venue Information",
      by simp [strAppend_assoc]⟩
  · exact ⟨"Business: " ++ name ++ "\nAddress: " ++ addr ++
        "\nPhone Number: ",
      "\n\nManta Business Listing",
      by simp [strAppend_assoc]⟩
  · exact ⟨name ++ "\n" ++ addr ++ "\n",
      "\n\nSuperpages Directory Information",
      by simp [strAppend_assoc]⟩
  · exact ⟨"Member Business: " ++ name ++ "\nBusiness Address: " ++ addr ++
        "\nContact Number: ",
      "\n\nChamber of Commerce Directory Listing",
      by simp [strAppend_assoc]⟩
  · exact ⟨name ++ "\n" ++ addr ++ "\n",
      "\n\nDirectory: " ++ pyCapitalize d,
      by simp [strAppend_assoc]⟩

theorem citationBuilderBody_nonempty (bd : BizData) (dirs : List String)
    (htr : truthyS (pyGet bd.name none) = true) (hd : dirs ≠ []) :
    citationBuilderBody bd dirs = Except.ok
      { success := true,
        citations := some (dirs.map (fun directory =>
          (directory, mkCitation (strOfVal (pyGet bd.name none))
            (strOfVal (pyGet bd.address (some "Address pending verification")))
            (strOfVal (if pyGet bd.phone (some "Phone pending verification") =
                some "Phone pending verification" then
              pyGet bd.phone (some "Phone pending verification")
            else
              some (formatPhoneVal
                (pyGet bd.phone (some "Phone pending verification")))))
            directory))) } := by
  unfold citationBuilderBody
  rw [if_neg (by simp [htr]), if_neg hd]

/-- C2: for every business-data dictionary whose name is a non-empty string,
the Citation Builder never raises and never fails for a missing address or
phone: the call returns `success: True`, and whenever the address (resp.
phone) key is missing, the corresponding placeholder string appears inside
every generated citation. -/
theorem citation_builder_placeholders (bd : BizData) (dirs : List String)
    (n : String) (hname : pyGet bd.name none = some n) (hn : n ≠ "") :
    (citationBuilderRun bd dirs).success = true ∧
    ∃ cits, (citationBuilderRun bd dirs).citations = some cits ∧
      (bd.address = none → ∀ p ∈ cits,
        ∃ x y, p.2 = x ++ ("Address pending verification" ++ y)) ∧
      (bd.phone = none → ∀ p ∈ cits,
        ∃ x y, p.2 = x ++ ("Phone pending verification" ++ y)) := by
  have htr : truthyS (pyGet bd.name none) = true := by
    rw [hname]
    simp [truthyS, hn]
  by_cases hd : dirs = []
  · subst hd
    have hbody : citationBuilderBody bd [] =
        Except.ok { success := true, citations := some [] } := by
      unfold citationBuilderBody
      rw [if_neg (by simp [htr]), if_pos rfl]
    have hrun : citationBuilderRun bd [] =
        { success := true, citations := some [] } := by
      unfold citationBuilderRun
      rw [hbody]
    rw [hrun]
    exact ⟨rfl, [], rfl,
      fun _ p hp => absurd hp (List.not_mem_nil p),
      fun _ p hp => absurd hp (List.not_mem_nil p)⟩
  · have hrun : citationBuilderRun bd dirs =
        { success := true,
          citations := some (dirs.map (fun directory =>
            (directory, mkCitation (strOfVal (pyGet bd.name none))
              (strOfVal (pyGet bd.address
                (some "Address pending verification")))
              (strOfVal (if pyGet bd.phone
                  (some "Phone pending verification") =
                  some "Phone pending verification" then
                pyGet bd.phone (some "Phone pending verification")
              else
                some (formatPhoneVal
                  (pyGet bd.phone (some "Phone pending verification")))))
              directory))) } := by
      unfold citationBuilderRun
      rw [citationBuilderBody_nonempty bd dirs htr hd]
    rw [hrun]
    refine ⟨rfl, _, rfl, ?_, ?_⟩
    · intro haddr p hp
      rcases List.mem_map.mp hp with ⟨d, _, rfl⟩
      have : strOfVal (pyGet bd.address
          (some "Address pending verification")) =
          "Address pending verification" := by
        rw [haddr]
        rfl
      rw [show (d, mkCitation (strOfVal (pyGet bd.name none))
          (strOfVal (pyGet bd.address (some "Address pending verification")))
          (strOfVal (if pyGet bd.phone (some "Phone pending verification") =
              some "Phone pending verification" then
            pyGet bd.phone (some "Phone pending verification")
          else
            some (formatPhoneVal
              (pyGet bd.phone (some "Phone pending verification")))))
          d).2 = mkCitation (strOfVal (pyGet bd.name none))
          (strOfVal (pyGet bd.address (some "Address pending verification")))
          (strOfVal (if pyGet bd.phone (some "Phone pending verification") =
              some "Phone pending verification" then
            pyGet bd.phone (some "Phone pending verification")
          else
            some (formatPhoneVal
              (pyGet bd.phone (some "Phone pending verification")))))
          d from rfl, this]
      exact mkCitation_has_address _ _ _ _
    · intro hphone p hp
      rcases List.mem_map.mp hp with ⟨d, _, rfl⟩
      have hp0 : pyGet bd.phone (some "Phone pending verification") =
          some "Phone pending verification" := by
        rw [hphone]
        rfl
      have : strOfVal (if pyGet bd.phone (some "Phone pending verification") =
          some "Phone pending verification" then
            pyGet bd.phone (some "Phone pending verification")
          else
            some (formatPhoneVal
              (pyGet bd.phone (some "Phone pending verification")))) =
          "Phone pending verification" := by
        rw [if_pos hp0, hp0]
        rfl
      show ∃ x y, mkCitation _ _ _ d = x ++ ("Phone pending verification" ++ y)
      rw [this]
      exact mkCitation_has_phone _ _ _ _

/-- Witness for C2: a dictionary with only a name; both placeholders land in
every citation and the call succeeds. -/
theorem citation_builder_placeholders_witness :
    (citationBuilderRun bd_nameonly ["yelp", "tripadvisor"]).success = true ∧
    ∃ cits, (citationBuilderRun bd_nameonly
        ["yelp", "tripadvisor"]).citations = some cits ∧
      (bd_nameonly.address = none → ∀ p ∈ cits,
        ∃ x y, p.2 = x ++ ("Address pending verification" ++ y)) ∧
      (bd_nameonly.phone = none → ∀ p ∈ cits,
        ∃ x y, p.2 = x ++ ("Phone pending verification" ++ y)) :=
  citation_builder_placeholders bd_nameonly ["yelp", "tripadvisor"]
    "Acme Anvils" rfl (by decide)

/-- C8: for every business-data input whose name key is absent, `None`, or
the empty string, `CitationBuilderAgent.run` fails the whole call with the
structured dictionary `{"success": False, "error": "Missing business
name"}` (a non-empty message), carries no citations key, and the internal
`ValueError` never escapes (the call is a total function returning that
dictionary). -/
theorem citation_builder_missing_name (bd : BizData) (dirs : List String)
    (h : truthyS (pyGet bd.name none) = false) :
    citationBuilderRun bd dirs =
      { success := false, citations := none,
        error := some "Missing business name" } ∧
    "Missing business name" ≠ "" := by
  refine ⟨?_, by decide⟩
  have hbody : citationBuilderBody bd dirs =
      Except.error "Missing business name" := by
    unfold citationBuilderBody
    rw [if_pos h]
  unfold citationBuilderRun
  rw [hbody]

/-- Witness for C8: a dictionary without a name key fails with the
structured error result. -/
theorem citation_builder_missing_name_witness :
    citationBuilderRun ({} : BizData) ["yelp"] =
      { success := false, citations := none,
        error := some "Missing business name" } ∧
    "Missing business name" ≠ "" :=
  citation_builder_missing_name ({} : BizData) ["yelp"] rfl

/-- C9: for every business-data input with a non-empty name and an empty
selected-directory list, `CitationBuilderAgent.run` returns
`{"success": True, "citations": {}}` — an empty mapping, not an error. -/
theorem citation_builder_empty_dirs (bd : BizData) (n : String)
    (hname : pyGet bd.name none = some n) (hn : n ≠ "") :
    citationBuilderRun bd [] =
      { success := true, citations := some [], error := none } := by
  have htr : truthyS (pyGet bd.name none) = true := by
    rw [hname]
    simp [truthyS, hn]
  have hbody : citationBuilderBody bd [] =
      Except.ok { success := true, citations := some [] } := by
    unfold citationBuilderBody
    rw [if_neg (by simp [htr]), if_pos rfl]
  unfold citationBuilderRun
  rw [hbody]

/-- Witness for C9: the name-only dictionary with no selected directories
yields a successful empty citation mapping. -/
theorem citation_builder_empty_dirs_witness :
    citationBuilderRun bd_nameonly [] =
      { success := true, citations := some [], error := none } :=
  citation_builder_empty_dirs bd_nameonly "Acme Anvils" rfl (by decide)

theorem researchLoop_keys (check : String → String → Except String Bool)
    (q : String) (urls : List String) :
    ((researchLoop check q urls).1).map Prod.fst = urls.map domainOf := by
  induction urls with
  | nil => rfl
  | cons url rest ih =>
    cases hc : check url q <;> simp [researchLoop, hc, ih]

theorem researchLoop_missing_sublist
    (check : String → String → Except String Bool) (q : String)
    (urls : List String) :
    List.Sublist (researchLoop check q urls).2 (urls.map domainOf) := by
  induction urls with
  | nil => simp [researchLoop]
  | cons url rest ih =>
    cases hc : check url q with
    | ok found =>
      cases found <;> simp [researchLoop, hc] <;>
        first
        | exact ih
        | exact ih.cons (domainOf url)
        | exact ih.cons₂ (domainOf url)
    | error e =>
      simp [researchLoop, hc]
      first
      | exact ih
      | exact ih.cons₂ (domainOf url)

theorem researchLoop_error_entry
    (check : String → String → Except String Bool) (q : String)
    (urls : List String) (url : String) (m : String)
    (hmem : url ∈ urls) (herr : check url q = Except.error m) :
    (domainOf url, ({ url := url, exists_ := false, error := some m } :
      DirEntry)) ∈ (researchLoop check q urls).1 ∧
    domainOf url ∈ (researchLoop check q urls).2 := by
  induction urls with
  | nil => cases hmem
  | cons u us ih =>
    rcases List.mem_cons.mp hmem with rfl | hmem2
    · constructor <;> simp [researchLoop, herr]
    · have hi := ih hmem2
      cases hc : check u q with
      | ok found =>
        cases found with
        | true =>
          simp [researchLoop, hc]
          first
          | exact ⟨hi.1, hi.2⟩
          | exact ⟨Or.inr hi.1, hi.2⟩
          | exact ⟨Or.inr hi.1, Or.inr hi.2⟩
        | false =>
          simp [researchLoop, hc]
          first
          | exact ⟨hi.1, Or.inr hi.2⟩
          | exact ⟨Or.inr hi.1, Or.inr hi.2⟩
      | error e =>
        simp [researchLoop, hc]
        first
        | exact ⟨Or.inr hi.1, Or.inr hi.2⟩
        | exact ⟨hi.1, Or.inr hi.2⟩
        | exact ⟨Or.inr hi.1, hi.2⟩

theorem domains_nodup : (BUSINESS_DIRECTORIES.map domainOf).Nodup := by
  decide

theorem sampler_first2_spec : ∀ l : List String, 2 ≤ l.length →
    ∃ i j : Fin l.length, i ≠ j ∧ sampler_first2 l = [l.get i, l.get j] := by
  intro l hl
  refine ⟨⟨0, by omega⟩, ⟨1, by omega⟩, ?_, ?_⟩
  · intro h
    simp [Fin.ext_iff] at h
  · unfold sampler_first2
    rw [dif_pos hl]

/-- C4: on the success path of `ResearcherAgent.run`, whenever at least two
directories are missing the selected list is a sample of exactly two
distinct elements of `missing_directories` (the distributional uniformity
of `random.sample` is abstracted into the `sampler` hypothesis, which
states that it returns the elements at two distinct positions); with fewer
than two missing, the selected list is `missing_directories` itself. -/
theorem researcher_selection (check : String → String → Except String Bool)
    (sampler : List String → List String) (bd : BizData) (n : String)
    (hname : pyGet bd.name none = some n) (hn : n ≠ "")
    (hs : ∀ l : List String, 2 ≤ l.length →
      ∃ i j : Fin l.length, i ≠ j ∧ sampler l = [l.get i, l.get j]) :
    ∃ missing selected,
      (researcherRun check sampler bd).missing_directories = some missing ∧
      (researcherRun check sampler bd).selected_directories = some selected ∧
      (2 ≤ missing.length → selected.length = 2 ∧ selected.Nodup ∧
        ∀ x ∈ selected, x ∈ missing) ∧
      (missing.length < 2 → selected = missing) := by
  have htr : truthyS (pyGet bd.name none) = true := by
    rw [hname]
    simp [truthyS, hn]
  unfold researcherRun
  rw [if_neg (by simp [htr])]
  set missing := (researchLoop check (searchQuery bd)
    BUSINESS_DIRECTORIES).2 with hmiss
  refine ⟨missing,
    if 2 ≤ missing.length then sampler missing else missing, rfl, rfl,
    ?_, ?_⟩
  · intro h2
    rw [if_pos h2]
    obtain ⟨i, j, hij, hsamp⟩ := hs missing h2
    have hnd : missing.Nodup := by
      have hsub := researchLoop_missing_sublist check (searchQuery bd)
        BUSINESS_DIRECTORIES
      rw [← hmiss] at hsub
      exact List.Nodup.sublist hsub domains_nodup
    rw [hsamp]
    refine ⟨rfl, ?_, ?_⟩
    · simp only [List.nodup_cons, List.mem_singleton, List.nodup_nil,
        and_true, List.not_mem_nil, not_false_iff]
      intro he
      exact hij ((List.Nodup.get_inj_iff hnd).mp he)
    · intro x hx
      rcases List.mem_cons.mp hx with rfl | hx2
      · exact List.get_mem missing i.1 i.2
      · rcases List.mem_cons.mp hx2 with rfl | hx3
        · exact List.get_mem missing j.1 j.2
        · cases hx3
  · intro hlt
    rw [if_neg (by omega)]

/-- Witness for C4: thirteen concrete missing directories; the deterministic
two-position sampler satisfies the sampling hypothesis and the selection
facts follow. -/
theorem researcher_selection_witness :
    ∃ missing selected,
      (researcherRun check_allmissing sampler_first2
        bd_nameonly).missing_directories = some missing ∧
      (researcherRun check_allmissing sampler_first2
        bd_nameonly).selected_directories = some selected ∧
      (2 ≤ missing.length → selected.length = 2 ∧ selected.Nodup ∧
        ∀ x ∈ selected, x ∈ missing) ∧
      (missing.length < 2 → selected = missing) :=
  researcher_selection check_allmissing sampler_first2 bd_nameonly
    "Acme Anvils" rfl (by decide) sampler_first2_spec

/-- C5: when checking one configured directory raises an exception, the
Researcher records that directory in `directories_checked` with
`exists: False` and the exception message as a (non-empty) error string,
appends its domain to `missing_directories`, still checks every other
configured directory, and the research stage returns `success: True`. -/
theorem researcher_error_isolation
    (check : String → String → Except String Bool)
    (sampler : List String → List String) (bd : BizData) (n url m : String)
    (hname : pyGet bd.name none = some n) (hn : n ≠ "")
    (hurl : url ∈ BUSINESS_DIRECTORIES)
    (herr : check url (searchQuery bd) = Except.error m) (hm : m ≠ "") :
    (researcherRun check sampler bd).success = true ∧
    ∃ checked missing,
      (researcherRun check sampler bd).directories_checked = some checked ∧
      (researcherRun check sampler bd).missing_directories = some missing ∧
      checked.map Prod.fst = BUSINESS_DIRECTORIES.map domainOf ∧
      (domainOf url, ({ url := url, exists_ := false, error := some m } :
        DirEntry)) ∈ checked ∧
      m ≠ "" ∧
      domainOf url ∈ missing := by
  have htr : truthyS (pyGet bd.name none) = true := by
    rw [hname]
    simp [truthyS, hn]
  unfold researcherRun
  rw [if_neg (by simp [htr])]
  have hentry := researchLoop_error_entry check (searchQuery bd)
    BUSINESS_DIRECTORIES url m hurl herr
  exact ⟨rfl,
    (researchLoop check (searchQuery bd) BUSINESS_DIRECTORIES).1,
    (researchLoop check (searchQuery bd) BUSINESS_DIRECTORIES).2,
    rfl, rfl,
    researchLoop_keys check (searchQuery bd) BUSINESS_DIRECTORIES,
    hentry.1, hm, hentry.2⟩

/-- Witness for C5: a simulated connection error on the BBB directory is
recorded as missing with its message while the other directories are still
checked. -/
theorem researcher_error_isolation_witness :
    (researcherRun check_bbb_error sampler_first2 bd_nameonly).success =
      true ∧
    ∃ checked missing,
      (researcherRun check_bbb_error sampler_first2
        bd_nameonly).directories_checked = some checked ∧
      (researcherRun check_bbb_error sampler_first2
        bd_nameonly).missing_directories = some missing ∧
      checked.map Prod.fst = BUSINESS_DIRECTORIES.map domainOf ∧
      (domainOf "https://www.bbb.org",
        ({ url := "https://www.bbb.org", exists_ := false, error := some "Connection refused" } :
          DirEntry)) ∈ checked ∧
      "Connection refused" ≠ "" ∧
      domainOf "https://www.bbb.org" ∈ missing :=
  researcher_error_isolation check_bbb_error sampler_first2 bd_nameonly
    "Acme Anvils" "https://www.bbb.org" "Connection refused" rfl (by decide)
    (by decide) rfl (by decide)

/-- C7 (amended): when extraction recovers no business name, `run_workflow`
always halts with `success: False` and `stage: "extraction"`, and research,
citation building and summary are never executed.  The error message is the
explicit missing-business-name message exactly when extraction reported
success or partial success; when it reported neither, the earlier
extraction-failure branch fires first and the message is the extraction
result's own error, defaulting to the generic
"Failed to extract required information". -/
theorem workflow_missing_name_halts
    (check : String → String → Except String Bool)
    (sampler : List String → List String) (er : BizData)
    (now ts maps_url : String)
    (h1 : maps_url ≠ "") (h2 : pyStrip maps_url ≠ "")
    (hname : truthyS (pyGet er.name none) = false) :
    (run_workflow check sampler er now ts maps_url).success = false ∧
    (run_workflow check sampler er now ts maps_url).stage =
      some "extraction" ∧
    (run_workflow check sampler er now ts maps_url).executed =
      ["extraction"] ∧
    "research" ∉ (run_workflow check sampler er now ts maps_url).executed ∧
    "citation_building" ∉
      (run_workflow check sampler er now ts maps_url).executed ∧
    "summary" ∉ (run_workflow check sampler er now ts maps_url).executed ∧
    ((er.success.getD false = true ∨ er.part_success.getD false = true) →
      (run_workflow check sampler er now ts maps_url).error =
        some (some "Failed to extract business name, which is required")) ∧
    (er.success.getD false = false ∧ er.part_success.getD false = false →
      (run_workflow check sampler er now ts maps_url).error =
        some (pyGet er.error
          (some "Failed to extract required information"))) := by
  have hval : ¬ (maps_url = "" ∨ pyStrip maps_url = "") := by
    simp [h1, h2]
  by_cases hflags : (er.success.getD false) = false ∧
      (er.part_success.getD false) = false
  · have hrun : run_workflow check sampler er now ts maps_url =
        { success := false, stage := some "extraction",
          error := some (pyGet er.error
            (some "Failed to extract required information")),
          executed := ["extraction"] } := by
      unfold run_workflow
      rw [if_neg hval, if_pos hflags]
    rw [hrun]
    refine ⟨rfl, rfl, rfl, by simp, by simp, by simp, ?_, fun _ => rfl⟩
    intro h
    rcases h with h | h
    · rw [hflags.1] at h
      cases h
    · rw [hflags.2] at h
      cases h
  · have hrun : run_workflow check sampler er now ts maps_url =
        { success := false, stage := some "extraction",
          error := some
            (some "Failed to extract business name, which is required"),
          executed := ["extraction"] } := by
      unfold run_workflow
      rw [if_neg hval, if_neg hflags, if_pos hname]
    rw [hrun]
    exact ⟨rfl, rfl, rfl, by simp, by simp, by simp, fun _ => rfl,
      fun hf => absurd hf hflags⟩

/-- Witness for C7 (amended): extraction found an address but no name; the
pipeline halts at the extraction stage with the missing-name message and no
later stage runs. -/
theorem workflow_missing_name_halts_witness :
    (run_workflow check_allmissing sampler_first2 er_nameless "now" "ts"
      "https://maps.google.com/place/x").success = false ∧
    (run_workflow check_allmissing sampler_first2 er_nameless "now" "ts"
      "https://maps.google.com/place/x").stage = some "extraction" ∧
    (run_workflow check_allmissing sampler_first2 er_nameless "now" "ts"
      "https://maps.google.com/place/x").executed = ["extraction"] ∧
    "research" ∉ (run_workflow check_allmissing sampler_first2 er_nameless
      "now" "ts" "https://maps.google.com/place/x").executed ∧
    "citation_building" ∉ (run_workflow check_allmissing sampler_first2
      er_nameless "now" "ts" "https://maps.google.com/place/x").executed ∧
    "summary" ∉ (run_workflow check_allmissing sampler_first2 er_nameless
      "now" "ts" "https://maps.google.com/place/x").executed ∧
    ((er_nameless.success.getD false = true ∨
        er_nameless.part_success.getD false = true) →
      (run_workflow check_allmissing sampler_first2 er_nameless "now" "ts"
        "https://maps.google.com/place/x").error =
        some (some "Failed to extract business name, which is required")) ∧
    (er_nameless.success.getD false = false ∧
        er_nameless.part_success.getD false = false →
      (run_workflow check_allmissing sampler_first2 er_nameless "now" "ts"
        "https://maps.google.com/place/x").error =
        some (pyGet er_nameless.error
          (some "Failed to extract required information"))) :=
  workflow_missing_name_halts check_allmissing sampler_first2 er_nameless
    "now" "ts" "https://maps.google.com/place/x" (by decide) (by decide) rfl

/-- Counterexample for C7 as stated: when extraction recovers nothing at
all, the run halts at `stage: "extraction"` with `success: False`, but the
error message is the generic "Failed to extract required information",
which does not even contain the word "name" — not a message about the
missing required business name. -/
theorem workflow_missing_name_counterexample :
    truthyS (pyGet er_noname.name none) = false ∧
    c7_run.success = false ∧
    c7_run.stage = some "extraction" ∧
    c7_run.error = some (some "Failed to extract required information") ∧
    strContains "Failed to extract required information" "name" = false ∧
    "Failed to extract required information" ≠
      "Failed to extract business name, which is required" := by
  exact ⟨rfl, by decide, by decide, by decide, by decide, by decide⟩

set_option maxRecDepth 40000 in
set_option maxHeartbeats 4000000 in
/-- C1 (actual behaviour at the claimed scenario): with extraction
returning name `"Joe's Cafe"`, address `""` and phone `""` (`success:
False`, `partial_success: True`), the pipeline does proceed to a successful
run, but the business data used by the later stages still carries the empty
strings (`main.py` lines 135–137 call `dict.get(key, placeholder)`, which
only substitutes the placeholder when the key is absent, and the extractor
always includes the keys), and the final report's business info block reads
`Address: ` and `Phone: ` with empty values — the placeholder strings
"Address unavailable" and "Phone unavailable" appear nowhere in the
report. -/
theorem workflow_empty_fields_report :
    c1_run.success = true ∧
    c1_run.business_info = some er_joes ∧
    er_joes.address = some (some "") ∧
    er_joes.phone = some (some "") ∧
    strContains (c1_run.content.getD "") ("Address: \nPhone: \n") = true ∧
    strContains (c1_run.content.getD "") "Address unavailable" = false ∧
    strContains (c1_run.content.getD "") "Phone unavailable" = false := by
  decide

/-- Witness for C10: idempotence applied at a concrete ten-digit input. -/
theorem format_phone_number_idem_witness :
    format_phone_number (format_phone_number "5551234567") =
      format_phone_number "5551234567" :=
  format_phone_number_idem "5551234567"
